import Mathlib

/-!
Verification development for a set of pedagogical Python concurrency scripts
(runners race, hospital shift with an event gate, download simulator with
three execution modes, a multiprocessing demo, a plain-threading demo and an
asyncio demo).  Shared state mutated under locks is modelled by folding the
critical-section bodies over an arbitrary completion order (a permutation of
the task list); temporal claims about the event gate are modelled by a
small-step interleaving transition system.
-/

namespace Simulador

/-- A work item of `Simulador_descargas_concurrentes.py`: one entry of the
`ARCHIVOS` list (lines 24-31), a file name and a size in MB. -/
structure Archivo where
  nombre : String
  tamano_mb : Nat
deriving DecidableEq, Repr

/-- The hard-coded `ARCHIVOS` list, lines 24-31 of
`Simulador_descargas_concurrentes.py`. -/
def ARCHIVOS : List Archivo :=
  [⟨"video_4K.mp4", 850⟩,
   ⟨"dataset_ml.zip", 420⟩,
   ⟨"backup_fotos.tar", 310⟩,
   ⟨"musica_album.zip", 180⟩,
   ⟨"documento_pdf.pdf", 45⟩,
   ⟨"software_v2.exe", 220⟩]

/-- The shared `estadisticas` dict (line 42): two numeric accumulators. -/
structure Estadisticas where
  total_mb : Nat
  archivos_completados : Nat
deriving DecidableEq, Repr

/-- The critical section of `descargar_archivo` guarded by `stats_lock`
(lines 93-95): `estadisticas["total_mb"] += tamaño` and
`estadisticas["archivos_completados"] += 1`. -/
def statsUpdate (s : Estadisticas) (a : Archivo) : Estadisticas :=
  { total_mb := s.total_mb + a.tamano_mb,
    archivos_completados := s.archivos_completados + 1 }

/-- The per-task result record returned by `descargar_archivo` (line 105):
`{"nombre": nombre, "tamaño": tamaño, "tiempo": tiempo_total}`.  The
`tiempo` field is wall-clock time and is not modelled. -/
structure Resultado where
  nombre : String
  tamano : Nat
deriving DecidableEq, Repr

/-- The result record `descargar_archivo` builds for a given file
(line 105). -/
def descargar_resultado (a : Archivo) : Resultado :=
  ⟨a.nombre, a.tamano_mb⟩

/-- The reset performed at the start of each mode (lines 133-134, 156-157,
198-199): `estadisticas["total_mb"] = 0; estadisticas["archivos_completados"] = 0`. -/
def resetEstadisticas : Estadisticas :=
  ⟨0, 0⟩

/-- `modo_secuencial` (lines 127-144): tasks run one at a time in `ARCHIVOS`
order; the returned pair is the final `estadisticas` and the final
`resultados` list. -/
def modo_secuencial_run (archivos : List Archivo) : Estadisticas × List Resultado :=
  (archivos.foldl statsUpdate resetEstadisticas,
   archivos.map descargar_resultado)

/-- `modo_threads` (lines 150-186): one thread per task; the shared-counter
updates happen in some interleaving order `ordenStats` and the
lock-guarded appends to `resultados` (lines 163-164) in some completion
order `ordenRes`; both are permutations of `ARCHIVOS` in any real run,
which the theorems take as a hypothesis. -/
def modo_threads_run (ordenStats ordenRes : List Archivo) :
    Estadisticas × List Resultado :=
  (ordenStats.foldl statsUpdate resetEstadisticas,
   ordenRes.map descargar_resultado)

/-- The error line printed by `modo_pool` when a future raised (line 217):
an f-string interpolating the nombre field of the task and the exception. -/
def errLine (a : Archivo) (e : String) : String :=
  "  Error descargando " ++ a.nombre ++ ": " ++ e

/-- The `as_completed` collection loop of `modo_pool` (lines 210-217),
parametrised by the completion order together with each task's outcome
(`future.result()` either returns the record or re-raises the task's
exception).  Returns the `resultados` list and the printed error lines, each
in loop order. -/
def poolCollect : List (Archivo × Except String Resultado) →
    List Resultado × List String
  | [] => ([], [])
  | (_, Except.ok r) :: rest =>
      let p := poolCollect rest
      (r :: p.1, p.2)
  | (a, Except.error e) :: rest =>
      let p := poolCollect rest
      (p.1, errLine a e :: p.2)

/-- `modo_pool` (lines 192-221) as it actually runs: `descargar_archivo`
raises no exception, so every future's outcome is `ok`; `ordenStats` is the
interleaving order of the guarded counter updates and `ordenCompleto` the
`as_completed` order. -/
def modo_pool_run (ordenStats ordenCompleto : List Archivo) :
    Estadisticas × List Resultado :=
  (ordenStats.foldl statsUpdate resetEstadisticas,
   (poolCollect (ordenCompleto.map fun a => (a, Except.ok (descargar_resultado a)))).1)

/-- The body of `modo_secuencial` applied to a list of task outcomes
(lines 138-140).  The loop has no try/except: each iteration calls
`descargar_archivo` and appends its record; an exception raised by a task
propagates out of the loop at once, so the remaining tasks never run and the
partial `resultados` list is lost with the raising frame. -/
def modo_secuencial_fallible : List (Except String Resultado) →
    Except String (List Resultado)
  | [] => Except.ok []
  | Except.ok r :: rest => (modo_secuencial_fallible rest).map (fun rs => r :: rs)
  | Except.error e :: _ => Except.error e

/-- The per-thread closure `tarea` of `modo_threads` (lines 161-164) applied
to each thread's outcome: a thread appends its record (under
`resultados_lock`) only if its own `descargar_archivo` call returned; a
raising thread dies alone without appending (the interpreter prints the
traceback, nothing in the program catches it) and the sibling threads are
unaffected. -/
def modo_threads_fallible (outs : List (Archivo × Except String Resultado)) :
    List Resultado :=
  outs.filterMap fun p =>
    match p.2 with
    | Except.ok r => some r
    | Except.error _ => none

/-- The shared variables of `Simulador_descargas_concurrentes.py` that more
than one thread can touch: the `estadisticas` dict (guarded by `stats_lock`)
and, in `modo_threads`, the `resultados` list (guarded by
`resultados_lock`).  The `resultados` list of `modo_pool` is appended only
by the main thread inside the `as_completed` loop, so it is not shared. -/
inductive SVar where
  | stats
  | resultadosVar
deriving DecidableEq, Repr

/-- One event of a mode's execution, as far as shared-state discipline is
concerned: a mutation of a shared variable tagged with whether the
corresponding guard was held, the start of the first worker, or the join of
the last worker. -/
inductive MEv where
  | mut (v : SVar) (locked : Bool)
  | startW
  | joinW
deriving DecidableEq, Repr

/-- The two counter updates of `descargar_archivo` (lines 94-95), performed
inside `with stats_lock` (line 93), which releases the guard on every exit
path. -/
def descargarStatsMuts : List MEv :=
  [MEv.mut SVar.stats true, MEv.mut SVar.stats true]

/-- The mutations performed by one `tarea` thread of `modo_threads`
(lines 161-164): the guarded counter updates of `descargar_archivo`
followed by the append to `resultados` inside `with resultados_lock`. -/
def tareaMuts : List MEv :=
  descargarStatsMuts ++ [MEv.mut SVar.resultadosVar true]

/-- The reset of `estadisticas` at the start of each mode (lines 133-134,
156-157, 198-199): two plain assignments, performed by the main thread with
no lock held. -/
def resetMuts : List MEv :=
  [MEv.mut SVar.stats false, MEv.mut SVar.stats false]

/-- Shared-state events of `modo_secuencial` (lines 127-144): the unguarded
resets, then the guarded counter updates of the six `descargar_archivo`
calls, all on the main thread (no worker is ever started). -/
def modoSecuencialEvs : List MEv :=
  resetMuts ++ (List.replicate ARCHIVOS.length descargarStatsMuts).flatten

/-- Shared-state events of `modo_threads` (lines 150-186): the unguarded
resets, then the first `hilo.start()`, then the six threads' guarded
mutations in some interleaved order (the per-event property proved below
does not depend on that order), then the last `hilo.join()`. -/
def modoThreadsEvs : List MEv :=
  resetMuts ++ [MEv.startW] ++ (List.replicate ARCHIVOS.length tareaMuts).flatten
    ++ [MEv.joinW]

/-- Shared-state events of `modo_pool` (lines 192-221): the unguarded
resets, then the pool workers start, then the six tasks' guarded counter
updates in some interleaved order, then the executor shutdown at the end of
the `with` block joins the workers. -/
def modoPoolEvs : List MEv :=
  resetMuts ++ [MEv.startW]
    ++ (List.replicate ARCHIVOS.length descargarStatsMuts).flatten ++ [MEv.joinW]

/-- Checks that every shared-state mutation in the trace happened with its
guard held. -/
def allMutsLocked (evs : List MEv) : Bool :=
  evs.all fun e =>
    match e with
    | MEv.mut _ l => l
    | _ => true

/-- Helper for `lockedWhileWorkers`: the Bool argument tracks whether worker
threads are currently running. -/
def lockedWhileWorkersGo : List MEv → Bool → Bool
  | [], _ => true
  | MEv.startW :: rest, _ => lockedWhileWorkersGo rest true
  | MEv.joinW :: rest, _ => lockedWhileWorkersGo rest false
  | MEv.mut _ l :: rest, w => (!w || l) && lockedWhileWorkersGo rest w

/-- Checks that every shared-state mutation that happens while worker
threads are running is performed with its guard held. -/
def lockedWhileWorkers (evs : List MEv) : Bool :=
  lockedWhileWorkersGo evs false

/-- The record one completed future contributes to `resultados`
(lines 212-214): `some` when `future.result()` returned, `none` when it
raised. -/
def okResult (p : Archivo × Except String Resultado) : Option Resultado :=
  match p.2 with
  | Except.ok r => some r
  | Except.error _ => none

/-- The error line one completed future contributes (lines 215-217):
`some` when it raised, `none` otherwise. -/
def errResult (p : Archivo × Except String Resultado) : Option String :=
  match p.2 with
  | Except.error e => some (errLine p.1 e)
  | Except.ok _ => none

end Simulador

namespace Corredores

/-- The hard-coded runner list `CORREDORES` of `Corredores.py` (line 18). -/
def CORREDORES : List String :=
  ["🧍 Ana", "🧍 Luis", "🧍 Marta", "🧍 Carlos", "🧍 Sofía"]

/-- The critical section of `correr` (lines 42-45 of `Corredores.py`),
executed under `lock`: read the current length of `llegadas` to compute
`posicion = len(llegadas) + 1`, append the runner, record the position.
The state is the pair of the shared `llegadas` list and the list of
positions announced so far. -/
def registrarLlegada (st : List String × List Nat) (nombre : String) :
    List String × List Nat :=
  let posicion := st.1.length + 1
  (st.1 ++ [nombre], st.2 ++ [posicion])

/-- A whole race: each runner executes the critical section exactly once,
in the arrival order `orden` (an arbitrary interleaving; a permutation of
`CORREDORES` in any real run), starting from the empty `llegadas` list. -/
def carreraRun (orden : List String) : List String × List Nat :=
  orden.foldl registrarLlegada ([], [])

end Corredores

namespace Hospital

/-- The hard-coded doctor names of `Hospital.py` (lines 19-24); the
especialidad and emoji fields do not flow into the shared state. -/
def MEDICOS : List String :=
  ["Dra. García", "Dr. Ramírez", "Dra. Torres", "Dr. Mendoza"]

/-- `PACIENTES_POR_MEDICO` (line 26). -/
def PACIENTES_POR_MEDICO : Nat := 3

/-- The record appended to `registro` (line 84): an f-string interpolating
the doctor name and the patient number. -/
def atencion (nombre : String) (i : Nat) : String :=
  nombre ++ " → Paciente " ++ toString i

/-- Global state of `Hospital.py`: the `apertura_hospital` event (line 32),
the shared `registro` list (line 37), the director's program counter
(0 = before `.set()`, 1 = after) and each doctor's program counter
(0 = blocked in `.wait()`; k with 1 ≤ k ≤ 3 = about to attend patient k;
4 = shift done). -/
structure HState where
  apertura : Bool
  registro : List String
  dirPC : Nat
  docPC : Fin 4 → Nat

/-- Initial state: the event starts cleared (line 32), `registro` empty
(line 37), no thread has run. -/
def inicial : HState :=
  { apertura := false, registro := [], dirPC := 0, docPC := fun _ => 0 }

/-- One interleaved step of `Hospital.py`:
`dirSet` is the director's `apertura_hospital.set()` (line 54);
`docWait` is a doctor's `apertura_hospital.wait()` returning (line 72),
enabled only once the event is set;
`docAtiende` is one iteration of a doctor's consultation loop (lines 77-87),
whose critical section appends one `atencion` record to `registro` under
`lock`. -/
inductive HStep : HState → HState → Prop where
  | dirSet (s : HState) (h : s.dirPC = 0) :
      HStep s { s with apertura := true, dirPC := 1 }
  | docWait (s : HState) (i : Fin 4) (h : s.docPC i = 0)
      (ho : s.apertura = true) :
      HStep s { s with docPC := Function.update s.docPC i 1 }
  | docAtiende (s : HState) (i : Fin 4) (k : Nat) (h : s.docPC i = k)
      (h1 : 1 ≤ k) (h2 : k ≤ PACIENTES_POR_MEDICO) :
      HStep s { s with
        registro := s.registro ++ [atencion (MEDICOS.getD i.val "") k],
        docPC := Function.update s.docPC i (k + 1) }

/-- A state the interleaved execution of `Hospital.py` can reach. -/
def Reachable (s : HState) : Prop :=
  Relation.ReflTransGen HStep inicial s

/-- The state right after the director calls `.set()` (line 54). -/
def hospS1 : HState :=
  { inicial with apertura := true, dirPC := 1 }

/-- The state after the first doctor's `.wait()` returns (line 72). -/
def hospS2 : HState :=
  { hospS1 with docPC := Function.update hospS1.docPC 0 1 }

/-- The state after the first doctor attends their first patient
(lines 83-86). -/
def hospS3 : HState :=
  { hospS2 with
    registro := hospS2.registro ++ [atencion (MEDICOS.getD (0 : Fin 4).val "") 1],
    docPC := Function.update hospS2.docPC 0 2 }

end Hospital

namespace Programas

/-- Models the builtin `input()` call: returns the line read from stdin, or
raises `EOFError` when the stream is exhausted (modelled as `none`). -/
def pyInput : Option String → Except String String
  | some line => Except.ok line
  | none => Except.error "EOFError"

/-- The process exit status: 0 on a normal return of `main`, 1 when an
uncaught exception terminates the interpreter. -/
def exitCode {α : Type} : Except String α → Nat
  | Except.ok _ => 0
  | Except.error _ => 1

/-- `main` of `Corredores.py` (lines 52-94): banner prints, the
`input()` pause (line 59), the race, the joins, the final listing of
`llegadas` with positions.  `orden` is the arrival interleaving. -/
def corredoresMain (stdin : Option String) (orden : List String) :
    Except String (List String × List Nat) := do
  let _ ← pyInput stdin
  pure (Corredores.carreraRun orden)

/-- `main` of `Hospital.py` (lines 95-145): banner prints, the `input()`
pause (line 105), the threads run and are joined, then the summary prints
`len(registro)` and the event state (set, since the director was joined).
`registro` is the final shared list produced by some interleaving. -/
def hospitalMain (stdin : Option String) (registro : List String) :
    Except String (Nat × Bool) := do
  let _ ← pyInput stdin
  pure (registro.length, true)

/-- `main` of `Simulador_descargas_concurrentes.py` (lines 274-304): banner
prints, the `input()` pause (line 285), then the three modes run in
sequence; the interesting final values are each mode's `estadisticas`. -/
def simuladorMain (stdin : Option String)
    (ordenT resT ordenP resP : List Simulador.Archivo) :
    Except String
      (Simulador.Estadisticas × Simulador.Estadisticas × Simulador.Estadisticas) := do
  let _ ← pyInput stdin
  pure ((Simulador.modo_secuencial_run Simulador.ARCHIVOS).1,
        (Simulador.modo_threads_run ordenT resT).1,
        (Simulador.modo_pool_run ordenP resP).1)

/-- `calcular` of `Calculo_intensivo_(Multiprocessing).py` (lines 4-7):
prints and computes `numero * numero`. -/
def calcular (numero : Nat) : Nat :=
  numero * numero

/-- The `__main__` block of `Calculo_intensivo_(Multiprocessing).py`
(lines 9-20): spawns a process per number in `range(1, 4)`, joins all,
prints the closing line; no `input()` call, no fallible operation. -/
def calculoMain : Except String (List Nat) :=
  Except.ok ((List.range' 1 3).map calcular)

/-- The `archivos` list of `Simulador_descargas_Hilos_(threading).py`
(line 11). -/
def hilosArchivos : List String :=
  ["archivo1.zip", "archivo2.mp4", "archivo3.pdf"]

/-- The module body of `Simulador_descargas_Hilos_(threading).py`
(lines 13-23): one thread per file, all joined, closing print; no
`input()` call, no fallible operation. -/
def hilosMain : Except String (List String) :=
  Except.ok hilosArchivos

/-- The three service names of `Simulador_API_(Asyncio).py`
(lines 11-15). -/
def SERVICIOS : List String :=
  ["Servicio 1", "Servicio 2", "Servicio 3"]

/-- `asyncio.run(main())` of `Simulador_API_(Asyncio).py` (lines 10-17):
`gather` awaits the three coroutines, none of which can fail. -/
def asyncioMain : Except String (List String) :=
  Except.ok SERVICIOS

/-- One scheduling-relevant event of a program's main routine: starting
worker `i`, joining worker `i`, or printing the final report. -/
inductive PEv where
  | start (i : Nat)
  | join (i : Nat)
  | report
deriving DecidableEq, Repr

/-- Events of `Corredores.main` (lines 62-90): five threads started
(lines 70-71), five joined (lines 75-76), then the results block
(lines 79-90). -/
def corredoresTrace : List PEv :=
  ((List.range 5).map PEv.start) ++ ((List.range 5).map PEv.join) ++ [PEv.report]

/-- Events of `Hospital.main` (lines 107-141): four doctor threads started
(lines 117-118), the director started (line 123, index 4), the director
joined (line 126), the doctors joined (lines 127-128), then the summary
(lines 131-141). -/
def hospitalTrace : List PEv :=
  ((List.range 4).map PEv.start) ++ [PEv.start 4, PEv.join 4]
    ++ ((List.range 4).map PEv.join) ++ [PEv.report]

/-- Events of the `__main__` block of
`Calculo_intensivo_(Multiprocessing).py`: three processes started
(lines 12-15), three joined (lines 17-18), the closing print (line 20). -/
def calculoTrace : List PEv :=
  ((List.range 3).map PEv.start) ++ ((List.range 3).map PEv.join) ++ [PEv.report]

/-- Events of `Simulador_descargas_Hilos_(threading).py`: three threads
started (lines 15-18), three joined (lines 20-21), the closing print
(line 23). -/
def hilosTrace : List PEv :=
  ((List.range 3).map PEv.start) ++ ((List.range 3).map PEv.join) ++ [PEv.report]

/-- Events of `modo_threads` (lines 166-185): six threads started
(lines 170-178), six joined (lines 181-182), then `_mostrar_resumen`
(line 185). -/
def simuladorThreadsTrace : List PEv :=
  ((List.range 6).map PEv.start) ++ ((List.range 6).map PEv.join) ++ [PEv.report]

/-- Events of `modo_pool` (lines 204-220): the executor spawns its three
pool workers; leaving the `with` block calls the executor shutdown with
wait set, which joins the worker threads before `_mostrar_resumen` runs
(line 220). -/
def simuladorPoolTrace : List PEv :=
  ((List.range 3).map PEv.start) ++ ((List.range 3).map PEv.join) ++ [PEv.report]

/-- Events of `Simulador_API_(Asyncio).py`: a single-threaded cooperative
scheduler, no worker thread or process is ever spawned. -/
def asyncioTrace : List PEv :=
  [PEv.report]

/-- The events that precede the final report. -/
def beforeReport (tr : List PEv) : List PEv :=
  tr.takeWhile fun e => !(e == PEv.report)

/-- Checks that every started worker has been joined before the final
report is printed. -/
def joinedBeforeReport (tr : List PEv) : Bool :=
  tr.all fun e =>
    match e with
    | PEv.start i => (beforeReport tr).contains (PEv.join i)
    | _ => true

end Programas

namespace Simulador

/-- Folding the guarded counter update over any task list adds the sum of
the sizes to `total_mb` and the number of tasks to `archivos_completados`. -/
theorem foldl_statsUpdate (l : List Archivo) (z : Estadisticas) :
    l.foldl statsUpdate z =
      ⟨z.total_mb + (l.map Archivo.tamano_mb).sum,
       z.archivos_completados + l.length⟩ := by
  induction l generalizing z with
  | nil => simp
  | cons a t ih =>
    simp only [List.foldl_cons, ih, List.map_cons, List.sum_cons, List.length_cons]
    simp [statsUpdate, Estadisticas.mk.injEq]
    constructor <;> omega

/-- After a reset, folding the guarded update over any permutation of
`ARCHIVOS` yields the totals 2025 MB and 6 files. -/
theorem stats_of_perm (σ : List Archivo) (h : σ.Perm ARCHIVOS) :
    σ.foldl statsUpdate resetEstadisticas = ⟨2025, 6⟩ := by
  rw [foldl_statsUpdate]
  have hs : (σ.map Archivo.tamano_mb).sum = 2025 := by
    rw [(h.map Archivo.tamano_mb).sum_eq]
    rfl
  have hl : σ.length = 6 := by
    rw [h.length_eq]
    rfl
  simp [resetEstadisticas, hs, hl]

/-- The `resultados` list built by the `as_completed` loop is exactly the
records of the futures that returned, in completion order. -/
theorem poolCollect_fst (cs : List (Archivo × Except String Resultado)) :
    (poolCollect cs).1 = cs.filterMap okResult := by
  induction cs with
  | nil => rfl
  | cons p rest ih =>
    obtain ⟨a, o⟩ := p
    cases o <;> simp [poolCollect, okResult, List.filterMap_cons, ih]

/-- The error lines printed by the `as_completed` loop are exactly those of
the futures that raised, in completion order. -/
theorem poolCollect_snd (cs : List (Archivo × Except String Resultado)) :
    (poolCollect cs).2 = cs.filterMap errResult := by
  induction cs with
  | nil => rfl
  | cons p rest ih =>
    obtain ⟨a, o⟩ := p
    cases o <;> simp [poolCollect, errResult, List.filterMap_cons, ih]

/-- When no future raises, the `as_completed` loop collects one record per
task in completion order. -/
theorem poolCollect_all_ok (l : List Archivo) :
    (poolCollect (l.map fun a => (a, Except.ok (descargar_resultado a)))).1
      = l.map descargar_resultado := by
  induction l with
  | nil => rfl
  | cons a t ih => simp [poolCollect, ih]

/-- With no try/except around the sequential loop, the first raising task
aborts the whole run: the tasks after it never execute. -/
theorem secuencial_fallible_aborta (pre : List (Except String Resultado))
    (e : String) (rest : List (Except String Resultado))
    (h : ∀ x ∈ pre, ∃ r, x = Except.ok r) :
    modo_secuencial_fallible (pre ++ Except.error e :: rest) = Except.error e := by
  induction pre with
  | nil => rfl
  | cons x t ih =>
    obtain ⟨r, hr⟩ := h x (List.mem_cons_self x t)
    subst hr
    have ht := ih fun y hy => h y (List.mem_cons_of_mem _ hy)
    simp [modo_secuencial_fallible, ht, Except.map]

/-- Claim C1: in every execution mode (sequential, one thread per task,
pool of 3 workers), once all workers are joined the `resultados` collection
holds exactly `len(ARCHIVOS) = 6` records, one per submitted task, for any
interleaving (any permutation of the task list as counter-update order and
completion order). -/
theorem resultados_completos (σt τt σp τp : List Archivo)
    (h2 : τt.Perm ARCHIVOS) (h4 : τp.Perm ARCHIVOS) :
    ARCHIVOS.length = 6
    ∧ (modo_secuencial_run ARCHIVOS).2.length = 6
    ∧ (modo_threads_run σt τt).2.length = 6
    ∧ (modo_pool_run σp τp).2.length = 6
    ∧ (modo_threads_run σt τt).2.Perm (ARCHIVOS.map descargar_resultado)
    ∧ (modo_pool_run σp τp).2.Perm (ARCHIVOS.map descargar_resultado) := by
  refine ⟨rfl, ?_, ?_, ?_, ?_, ?_⟩
  · simp only [modo_secuencial_run, List.length_map]
    rfl
  · simp only [modo_threads_run, List.length_map, h2.length_eq]
    rfl
  · simp only [modo_pool_run, poolCollect_all_ok, List.length_map, h4.length_eq]
    rfl
  · simpa [modo_threads_run] using h2.map descargar_resultado
  · simpa [modo_pool_run, poolCollect_all_ok] using h4.map descargar_resultado

/-- Witness for C1 at the identity interleaving. -/
theorem resultados_completos_concreto :
    (Simulador.modo_pool_run ARCHIVOS ARCHIVOS).2.length = 6 :=
  (resultados_completos ARCHIVOS ARCHIVOS ARCHIVOS ARCHIVOS
    (List.Perm.refl _) (List.Perm.refl _)).2.2.2.1

/-- Claim C2: in every mode, once all workers are joined the shared
counters equal the totals over the submitted tasks —
`total_mb = 2025`, the sum of the sizes in `ARCHIVOS`, and
`archivos_completados = 6 = len(ARCHIVOS)` — for any interleaving `σ` of
the lock-guarded counter updates. -/
theorem estadisticas_suman (σ : List Archivo) (h : σ.Perm ARCHIVOS) :
    (ARCHIVOS.map Archivo.tamano_mb).sum = 2025
    ∧ ARCHIVOS.length = 6
    ∧ (modo_secuencial_run ARCHIVOS).1 = ⟨2025, 6⟩
    ∧ (∀ τ, (modo_threads_run σ τ).1 = ⟨2025, 6⟩)
    ∧ (∀ τ, (modo_pool_run σ τ).1 = ⟨2025, 6⟩) := by
  refine ⟨rfl, rfl, stats_of_perm ARCHIVOS (List.Perm.refl _), ?_, ?_⟩
  · intro τ
    exact stats_of_perm σ h
  · intro τ
    exact stats_of_perm σ h

/-- Witness for C2 at the identity interleaving. -/
theorem estadisticas_suman_concreto :
    (Simulador.modo_secuencial_run ARCHIVOS).1 = ⟨2025, 6⟩ :=
  (estadisticas_suman ARCHIVOS (List.Perm.refl _)).2.2.1

/-- Claim C3, counterexample: the claim states that every mutation of the
shared counters happens under `stats_lock`, "in particular the resets of
estadisticas at the start of each mode"; but the resets (lines 133-134,
156-157, 198-199) are plain assignments with no lock held, so in every mode
trace not all mutations are guarded. -/
theorem resets_sin_lock :
    MEv.mut SVar.stats false ∈ modoSecuencialEvs
    ∧ allMutsLocked modoSecuencialEvs = false
    ∧ allMutsLocked modoThreadsEvs = false
    ∧ allMutsLocked modoPoolEvs = false := by
  decide

/-- Claim C3, amended: every mutation of shared state performed while
worker threads are running — the counter updates of `descargar_archivo`
and the `resultados` append of `tarea` — happens with its guard held (the
guard, entered by a with statement, is released on every exit path); the
resets of `estadisticas` at the start of each mode, however, are plain
assignments by the main thread with no lock held, executed before any
worker is started. -/
theorem mutaciones_bajo_lock :
    lockedWhileWorkers modoSecuencialEvs = true
    ∧ lockedWhileWorkers modoThreadsEvs = true
    ∧ lockedWhileWorkers modoPoolEvs = true
    ∧ allMutsLocked descargarStatsMuts = true
    ∧ allMutsLocked tareaMuts = true
    ∧ modoThreadsEvs.take 3 = resetMuts ++ [MEv.startW]
    ∧ modoPoolEvs.take 3 = resetMuts ++ [MEv.startW]
    ∧ allMutsLocked resetMuts = false := by
  decide

/-- Claim C5: in pooled execution, if a task raises, the exception is
caught per-task by the try/except of the `as_completed` loop: an error line
containing that task's `nombre` is printed, the task's record is excluded
from `resultados` (which is exactly the ok records), and every other
returning task's record is still collected. -/
theorem pool_maneja_excepcion (cs : List (Archivo × Except String Resultado))
    (a : Archivo) (e : String) (h : (a, Except.error e) ∈ cs) :
    errLine a e ∈ (poolCollect cs).2
    ∧ (∃ pre post, errLine a e = pre ++ a.nombre ++ post)
    ∧ (poolCollect cs).1 = cs.filterMap okResult
    ∧ (∀ p ∈ cs, ∀ r, p.2 = Except.ok r → r ∈ (poolCollect cs).1) := by
  refine ⟨?_, ⟨"  Error descargando ", ": " ++ e, String.append_assoc _ _ _⟩,
    poolCollect_fst cs, ?_⟩
  · rw [poolCollect_snd]
    exact List.mem_filterMap.mpr ⟨(a, Except.error e), h, rfl⟩
  · intro p hp r hr
    rw [poolCollect_fst]
    refine List.mem_filterMap.mpr ⟨p, hp, ?_⟩
    simp [okResult, hr]

/-- Witness for C5: a two-task completion order whose second task raised. -/
theorem pool_maneja_excepcion_concreto :
    errLine ⟨"dataset_ml.zip", 420⟩ "boom"
      ∈ (poolCollect
          [(⟨"video_4K.mp4", 850⟩, Except.ok ⟨"video_4K.mp4", 850⟩),
           (⟨"dataset_ml.zip", 420⟩, Except.error "boom")]).2 :=
  (pool_maneja_excepcion
    [(⟨"video_4K.mp4", 850⟩, Except.ok ⟨"video_4K.mp4", 850⟩),
     (⟨"dataset_ml.zip", 420⟩, Except.error "boom")]
    ⟨"dataset_ml.zip", 420⟩ "boom" (by simp)).1

/-- Claim C6, counterexample: in sequential mode the loop (lines 138-140)
has no try/except, so a failure in the second of three tasks propagates and
aborts the run — nothing is caught or logged by the program and the third
task never executes, contradicting the claim for that mode. -/
theorem secuencial_no_captura :
    modo_secuencial_fallible
        [Except.ok ⟨"video_4K.mp4", 850⟩, Except.error "fallo simulado",
         Except.ok ⟨"backup_fotos.tar", 310⟩]
      = Except.error "fallo simulado" := rfl

/-- Claim C6, amended: only pooled execution catches a per-task failure and
logs it, the other returning tasks still being collected; in per-task-thread
mode a failing task dies alone without aborting its siblings, whose records
are all still appended, but nothing in the program catches or logs the
failure; in sequential mode the failure propagates immediately and the
remaining tasks never run. -/
theorem fallos_por_modo (cs : List (Archivo × Except String Resultado))
    (a : Archivo) (e : String) (hc : (a, Except.error e) ∈ cs)
    (pre : List (Except String Resultado)) (e2 : String)
    (rest : List (Except String Resultado))
    (hpre : ∀ x ∈ pre, ∃ r, x = Except.ok r) :
    (errLine a e ∈ (poolCollect cs).2
      ∧ ∀ p ∈ cs, ∀ r, p.2 = Except.ok r → r ∈ (poolCollect cs).1)
    ∧ (∀ outs : List (Archivo × Except String Resultado),
        ∀ p ∈ outs, ∀ r, p.2 = Except.ok r → r ∈ modo_threads_fallible outs)
    ∧ modo_secuencial_fallible (pre ++ Except.error e2 :: rest)
        = Except.error e2 := by
  refine ⟨⟨?_, ?_⟩, ?_, secuencial_fallible_aborta pre e2 rest hpre⟩
  · rw [poolCollect_snd]
    exact List.mem_filterMap.mpr ⟨(a, Except.error e), hc, rfl⟩
  · intro p hp r hr
    rw [poolCollect_fst]
    refine List.mem_filterMap.mpr ⟨p, hp, ?_⟩
    simp [okResult, hr]
  · intro outs p hp r hr
    refine List.mem_filterMap.mpr ⟨p, hp, ?_⟩
    simp [hr]

/-- Witness for C6 at a concrete one-task pool failure and a concrete
sequential prefix. -/
theorem fallos_por_modo_concreto :
    modo_secuencial_fallible
        [Except.ok ⟨"video_4K.mp4", 850⟩, Except.error "boom"]
      = Except.error "boom" :=
  (fallos_por_modo [(⟨"x", 1⟩, Except.error "boom")] ⟨"x", 1⟩ "boom"
    (by simp) [Except.ok ⟨"video_4K.mp4", 850⟩] "boom" []
    (by simp)).2.2

/-- Claim C10: the three execution modes are equivalent on the final shared
statistics: each mode resets the counters and then accumulates the same
`ARCHIVOS` list, so after the workers are joined `estadisticas` holds the
same value — total 2025 MB, 6 files — whichever mode ran and whatever the
interleavings were. -/
theorem modos_equivalentes (σt τt σp τp : List Archivo)
    (h1 : σt.Perm ARCHIVOS) (h3 : σp.Perm ARCHIVOS) :
    (modo_threads_run σt τt).1 = (modo_secuencial_run ARCHIVOS).1
    ∧ (modo_pool_run σp τp).1 = (modo_secuencial_run ARCHIVOS).1
    ∧ (modo_secuencial_run ARCHIVOS).1 = ⟨2025, 6⟩ := by
  have hseq : (modo_secuencial_run ARCHIVOS).1 = ⟨2025, 6⟩ :=
    stats_of_perm ARCHIVOS (List.Perm.refl _)
  exact ⟨(stats_of_perm σt h1).trans hseq.symm,
    (stats_of_perm σp h3).trans hseq.symm, hseq⟩

/-- Witness for C10 at the identity interleavings. -/
theorem modos_equivalentes_concreto :
    (Simulador.modo_threads_run ARCHIVOS ARCHIVOS).1
      = (Simulador.modo_secuencial_run ARCHIVOS).1 :=
  (modos_equivalentes ARCHIVOS ARCHIVOS ARCHIVOS ARCHIVOS
    (List.Perm.refl _) (List.Perm.refl _)).1

end Simulador

namespace Corredores

/-- Folding the critical section of `correr` over an arrival order, from
any starting state, appends the arrivals and announces the successive
lengths as positions. -/
theorem carreraRun_foldl (orden : List String) (acc1 : List String)
    (acc2 : List Nat) :
    orden.foldl registrarLlegada (acc1, acc2)
      = (acc1 ++ orden, acc2 ++ List.range' (acc1.length + 1) orden.length) := by
  induction orden generalizing acc1 acc2 with
  | nil => simp
  | cons x t ih =>
    simp only [List.foldl_cons, registrarLlegada, ih, List.length_append,
      List.length_cons, List.length_nil, List.range'_succ]
    refine Prod.ext ?_ ?_ <;> simp [List.append_assoc]

/-- A race run from the empty `llegadas` list yields the arrival order and
the positions 1, 2, ..., n. -/
theorem carreraRun_eq (orden : List String) :
    carreraRun orden = (orden, List.range' 1 orden.length) := by
  simpa using carreraRun_foldl orden [] []

/-- Claim C9: after all runner threads are joined, `llegadas` is a
permutation of `CORREDORES` — every runner appears exactly once — and the
positions computed inside the critical section (`len(llegadas) + 1` at
append time) enumerate 1..len(CORREDORES) with no duplicates, for any
arrival interleaving. -/
theorem llegadas_completa (orden : List String) (h : orden.Perm CORREDORES) :
    (carreraRun orden).1 = orden
    ∧ (carreraRun orden).1.Perm CORREDORES
    ∧ (∀ c ∈ CORREDORES, (carreraRun orden).1.count c = 1)
    ∧ (carreraRun orden).2 = List.range' 1 CORREDORES.length
    ∧ (carreraRun orden).2.Nodup := by
  have h1 : carreraRun orden = (orden, List.range' 1 orden.length) :=
    carreraRun_eq orden
  have hnodupC : CORREDORES.Nodup := by decide
  refine ⟨by rw [h1], by rw [h1]; exact h, ?_, ?_, ?_⟩
  · intro c hc
    rw [h1]
    have : orden.Nodup := h.nodup_iff.mpr hnodupC
    exact List.count_eq_one_of_mem this (h.mem_iff.mpr hc)
  · rw [h1, h.length_eq]
  · rw [h1]
    exact List.nodup_range' 1 orden.length

/-- Witness for C9 at the arrival order equal to `CORREDORES` itself. -/
theorem llegadas_completa_concreto :
    (carreraRun CORREDORES).2 = List.range' 1 CORREDORES.length :=
  (llegadas_completa CORREDORES (List.Perm.refl _)).2.2.2.1

end Corredores

namespace Hospital

/-- While the gate is still closed, nothing has happened: `registro` is
empty and every doctor is still blocked in `.wait()`.  Proved by induction
over the reachable states. -/
theorem reachable_cerrado (s : HState) (hs : Reachable s) :
    s.apertura = false → s.registro = [] ∧ ∀ i, s.docPC i = 0 := by
  induction hs with
  | refl => intro _; exact ⟨rfl, fun _ => rfl⟩
  | tail _ hstep ih =>
    cases hstep with
    | dirSet h => intro hap; simp at hap
    | docWait i h ho =>
      intro hap
      simp only at hap
      rw [hap] at ho
      exact absurd ho (by simp)
    | docAtiende i k h h1 h2 =>
      intro hap
      simp only at hap
      obtain ⟨-, hpc⟩ := ih hap
      rw [hpc i] at h
      omega

/-- No step of the system clears the event: once set it stays set. -/
theorem apertura_persiste (s t : HState) (h : HStep s t) :
    s.apertura = true → t.apertura = true := by
  cases h <;> simp_all

/-- The only step that changes the event is the director's `.set()`, which
turns it from cleared to set while moving the director past their single
`set` instruction. -/
theorem cambio_unico (s t : HState) (h : HStep s t)
    (hne : s.apertura ≠ t.apertura) :
    s.apertura = false ∧ t.apertura = true ∧ s.dirPC = 0 ∧ t.dirPC = 1 := by
  cases h with
  | dirSet hd =>
    refine ⟨?_, rfl, hd, rfl⟩
    cases hs : s.apertura
    · rfl
    · exact absurd (by simp [hs]) hne
  | docWait i h ho => exact absurd rfl hne
  | docAtiende i k h h1 h2 => exact absurd rfl hne

/-- Once the director has run `.set()`, no step moves their program counter
again, so the set can fire at most once along any execution. -/
theorem dirPC_persiste (s t : HState) (h : HStep s t) (hd : 1 ≤ s.dirPC) :
    t.dirPC = s.dirPC := by
  cases h with
  | dirSet h0 => omega
  | docWait i h ho => rfl
  | docAtiende i k h h1 h2 => rfl

/-- Claim C4: the hospital gate makes exactly one transition, from closed
to open, triggered once by the director, and once open it never closes: in
every reachable state, a step never clears a set event, any step that
changes the event is the director's single `.set()` (enabled only while
their program counter is still 0, which it then leaves forever), and no
doctor has appended to `registro` while the event is still cleared. -/
theorem puerta_una_transicion (s : HState) (hs : Reachable s) :
    (s.registro ≠ [] → s.apertura = true)
    ∧ (∀ t, HStep s t → s.apertura = true → t.apertura = true)
    ∧ (∀ t, HStep s t → s.apertura ≠ t.apertura →
        s.apertura = false ∧ t.apertura = true ∧ s.dirPC = 0 ∧ t.dirPC = 1)
    ∧ (∀ t, HStep s t → 1 ≤ s.dirPC → t.dirPC = s.dirPC) := by
  refine ⟨?_, fun t ht => apertura_persiste s t ht,
    fun t ht hne => cambio_unico s t ht hne,
    fun t ht hd => dirPC_persiste s t ht hd⟩
  intro hne
  cases hap : s.apertura
  · exact absurd (reachable_cerrado s hs hap).1 hne
  · rfl

/-- Witness for C4: a concrete three-step execution — the director sets the
event, a doctor's wait returns, the doctor attends one patient — reaches a
state with a non-empty `registro` and, by the theorem, an open gate. -/
theorem puerta_una_transicion_concreto :
    hospS3.registro ≠ [] ∧ hospS3.apertura = true := by
  have st1 : HStep inicial hospS1 := HStep.dirSet inicial rfl
  have st2 : HStep hospS1 hospS2 := HStep.docWait hospS1 0 rfl rfl
  have st3 : HStep hospS2 hospS3 := by
    refine HStep.docAtiende hospS2 0 1 ?_ ?_ ?_
    · simp [hospS2, hospS1, inicial]
    · omega
    · decide
  have hr : Reachable hospS3 :=
    Relation.ReflTransGen.tail
      (Relation.ReflTransGen.tail
        (Relation.ReflTransGen.tail Relation.ReflTransGen.refl st1) st2) st3
  have hne : hospS3.registro ≠ [] := by
    simp [hospS3, hospS2, hospS1, inicial]
  exact ⟨hne, (puerta_una_transicion hospS3 hr).1 hne⟩

end Hospital

namespace Programas

/-- Claim C7, counterexample: the claim states every program exits with
success for every input, including at the press-enter pause; but when stdin
is exhausted at that pause, `input()` raises `EOFError` (line 59 of
`Corredores.py`), which nothing catches, and the interpreter terminates
with a failure status. -/
theorem eof_termina_con_error :
    exitCode (corredoresMain none Corredores.CORREDORES) = 1 := rfl

/-- Claim C7, amended: whenever a line is available at each press-enter
pause, every program in the repository terminates with a success exit code
(no error exit path is defined and nothing else can raise); but if stdin is
exhausted at the pause, the three interactive programs die of an uncaught
`EOFError` and exit with a failure status (the three non-interactive
programs always exit with success). -/
theorem salida_exitosa :
    (∀ line orden, exitCode (corredoresMain (some line) orden) = 0)
    ∧ (∀ line registro, exitCode (hospitalMain (some line) registro) = 0)
    ∧ (∀ line a b c d, exitCode (simuladorMain (some line) a b c d) = 0)
    ∧ exitCode calculoMain = 0
    ∧ exitCode hilosMain = 0
    ∧ exitCode asyncioMain = 0
    ∧ (∀ orden, exitCode (corredoresMain none orden) = 1)
    ∧ (∀ registro, exitCode (hospitalMain none registro) = 1)
    ∧ (∀ a b c d, exitCode (simuladorMain none a b c d) = 1) :=
  ⟨fun _ _ => rfl, fun _ _ => rfl, fun _ _ _ _ _ => rfl, rfl, rfl, rfl,
   fun _ => rfl, fun _ => rfl, fun _ _ _ _ => rfl⟩

/-- Claim C8: in every program, the controlling routine joins every worker
it started before the final summary is printed: in each program's event
trace, every started worker index has a matching join strictly before the
report event. -/
theorem join_antes_resumen :
    joinedBeforeReport corredoresTrace = true
    ∧ joinedBeforeReport hospitalTrace = true
    ∧ joinedBeforeReport calculoTrace = true
    ∧ joinedBeforeReport hilosTrace = true
    ∧ joinedBeforeReport simuladorThreadsTrace = true
    ∧ joinedBeforeReport simuladorPoolTrace = true
    ∧ joinedBeforeReport asyncioTrace = true := by
  decide

end Programas
